import Mathlib

/-!
# srvany-ng: supervision state machine

A shallow embedding of `src/srvany-ng.c`.  The program state is the set of C
globals plus a trace of the operating-system calls the program has issued.
Results of operating-system calls that the program cannot determine itself
(the child's wait result, its exit code, registry reads, process creation) are
inputs of the model.  `OutputDebugString` diagnostics are not recorded.
-/

namespace SrvanyNg

/-- A Windows `DWORD`; the program only stores and compares these values. -/
abbrev DWORD := Nat

/-! ## Constants of the Windows SDK headers used by the program -/

def WAIT_OBJECT_0 : DWORD := 0
def WAIT_TIMEOUT : DWORD := 258
def WAIT_FAILED : DWORD := 4294967295
def ERROR_SUCCESS : DWORD := 0
def SERVICE_CONTROL_STOP : DWORD := 1
def SERVICE_CONTROL_PAUSE : DWORD := 2
def SERVICE_CONTROL_CONTINUE : DWORD := 3
def SERVICE_STOPPED : DWORD := 1
def SERVICE_RUNNING : DWORD := 4
def SERVICE_PAUSED : DWORD := 7
def SERVICE_ACCEPT_STOP : DWORD := 1
def SERVICE_WIN32_OWN_PROCESS : DWORD := 16

/-! ## Constants of srvany-ng.c (lines 38-39) -/

def APP_FAILED : Int := 1
def APP_EXITED : Int := 2

/-! ## Data model -/

/-- The `SERVICE_STATUS` record handed to `SetServiceStatus`. -/
structure SERVICE_STATUS where
  dwServiceType : DWORD
  dwCurrentState : DWORD
  dwControlsAccepted : DWORD
  dwWin32ExitCode : DWORD
  dwServiceSpecificExitCode : DWORD
  dwCheckPoint : DWORD
  dwWaitHint : DWORD
deriving DecidableEq, Repr

/-- The `PROCESS_INFORMATION` record filled in by `CreateProcess`; handles are
numbers and `0` is `NULL`. -/
structure PROCESS_INFORMATION where
  hProcess : Nat
  hThread : Nat
  dwProcessId : DWORD
  dwThreadId : DWORD
deriving DecidableEq, Repr

/-- Operating-system calls issued by the program, with the arguments and
results that matter to the supervision logic. -/
inductive Call where
  | setServiceStatus (status : SERVICE_STATUS)
  | setEvent
  | terminateProcess (hProcess : Nat) (uExitCode : DWORD) (result : Bool)
  | waitForProcess (hProcess : Nat) (result : DWORD)
  | getExitCodeProcess (hProcess : Nat) (result : Option DWORD)
  | sleep (dwMilliseconds : Nat)
  | createProcess (lpCommandLine : String) (lpEnvironment : Option String)
      (lpCurrentDirectory : Option String) (result : Bool)
  | createThread (result : Bool)
  | closeHandle
deriving DecidableEq, Repr

/-- The globals of srvany-ng.c (lines 31-36) and the trace of calls so far.
`g_ServiceStopEvent` is `none` while the handle names no event object
(`INVALID_HANDLE_VALUE`, a failed `CreateEvent`, or after `CloseHandle`) and
`some b` for the manual-reset event whose signalled state is `b`. -/
structure State where
  g_StatusHandle : Nat
  g_ServiceStopEvent : Option Bool
  g_Process : PROCESS_INFORMATION
  g_checkApplicationExitCode : Bool
  g_applicationNormalExitCode : DWORD
  g_failIfAppExits : DWORD
  trace : List Call
deriving DecidableEq, Repr

/-- The initial values of the globals (lines 31-36). -/
def initialState : State :=
  { g_StatusHandle := 0
    g_ServiceStopEvent := none
    g_Process := { hProcess := 0, hThread := 0, dwProcessId := 0, dwThreadId := 0 }
    g_checkApplicationExitCode := false
    g_applicationNormalExitCode := 0
    g_failIfAppExits := 0
    trace := [] }

/-- How a thread of the program ends: its function returns, `exit(status)`
ends the whole process, or (model only) the supplied observations ran out
while the worker was still polling. -/
inductive Outcome (α : Type) where
  | returned (value : α)
  | exited (status : Int)
  | running
deriving DecidableEq, Repr

/-- Append one call to the trace. -/
def emit (c : Call) (s : State) : State :=
  { s with trace := s.trace ++ [c] }

/-! ## Operating-system primitives on the stop event -/

/-- The call `SetEvent(g_ServiceStopEvent)`: signals the event if it exists. -/
def SetEvent (s : State) : State :=
  emit Call.setEvent { s with g_ServiceStopEvent := s.g_ServiceStopEvent.map (fun _ => true) }

/-- The call `WaitForSingleObject(g_ServiceStopEvent, 0)`. -/
def WaitForStopEvent (s : State) : DWORD :=
  match s.g_ServiceStopEvent with
  | some true => WAIT_OBJECT_0
  | some false => WAIT_TIMEOUT
  | none => WAIT_FAILED

/-- The call `CloseHandle(g_ServiceStopEvent)`. -/
def CloseStopEvent (s : State) : State :=
  emit Call.closeHandle { s with g_ServiceStopEvent := none }

/-! ## The program -/

/-- Lines 41-47.  `query` is the result of `GetExitCodeProcess` (`none` when
it returns `FALSE`).  Returns `some status` when `exit(status)` is called. -/
def CheckApplicationExitCode (query : Option DWORD) (s : State) : Option Int × State :=
  let s := emit (Call.getExitCodeProcess s.g_Process.hProcess query) s
  match query with
  | none => (some APP_FAILED, s)
  | some processExitCode =>
    if processExitCode ≠ s.g_applicationNormalExitCode then (some APP_FAILED, s)
    else (none, s)

/-- Lines 83-91: the `SERVICE_STATUS` record that `ServiceSetState` fills in. -/
def serviceStatus (acceptedControls newState exitCode : DWORD) : SERVICE_STATUS :=
  { dwCheckPoint := 0
    dwControlsAccepted := acceptedControls
    dwCurrentState := newState
    dwServiceSpecificExitCode := 0
    dwServiceType := SERVICE_WIN32_OWN_PROCESS
    dwWaitHint := 0
    dwWin32ExitCode := exitCode }

/-- Lines 81-97: fill in the record and hand it to `SetServiceStatus`. -/
def ServiceSetState (acceptedControls newState exitCode : DWORD) (s : State) : State :=
  emit (Call.setServiceStatus (serviceStatus acceptedControls newState exitCode)) s

/-- Lines 103-124.  `terminateResult` is what `TerminateProcess` returns
(`FALSE` for instance when the child has already exited); the source discards
it. -/
def ServiceCtrlHandler (CtrlCode : DWORD) (terminateResult : Bool) (s : State) : State :=
  if CtrlCode = SERVICE_CONTROL_STOP then
    let s := SetEvent s
    let s := emit (Call.terminateProcess s.g_Process.hProcess 0 terminateResult) s
    ServiceSetState 0 SERVICE_STOPPED 0 s
  else if CtrlCode = SERVICE_CONTROL_PAUSE then
    ServiceSetState 0 SERVICE_PAUSED 0 s
  else if CtrlCode = SERVICE_CONTROL_CONTINUE then
    ServiceSetState 0 SERVICE_RUNNING 0 s
  else
    s

/-- One control request delivered by the host service manager, with the
result `TerminateProcess` would give at that moment. -/
structure Control where
  code : DWORD
  terminateResult : Bool
deriving DecidableEq, Repr

/-- The host runs the control handler once per request, in order. -/
def deliver (cs : List Control) (s : State) : State :=
  cs.foldl (fun st c => ServiceCtrlHandler c.code c.terminateResult st) s

/-- What the environment does around one evaluation of the worker's loop
condition: the control requests handled since the previous evaluation, the
result of `WaitForSingleObject(g_Process.hProcess, 0)`, and the result of
`GetExitCodeProcess` (`none` when it returns `FALSE`). -/
structure Tick where
  controls : List Control
  processWait : DWORD
  exitCodeQuery : Option DWORD
deriving DecidableEq, Repr

/-- Lines 53-75.  Each evaluation of the loop condition consumes one `Tick`;
with no tick left the worker is reported as still `running`. -/
def ServiceWorkerThread : List Tick → State → Outcome DWORD × State
  | [], s => (Outcome.running, s)
  | t :: ts, s =>
    let s := deliver t.controls s
    if WaitForStopEvent s ≠ WAIT_OBJECT_0 then
      let s := emit (Call.waitForProcess s.g_Process.hProcess t.processWait) s
      if t.processWait = WAIT_OBJECT_0 then
        if s.g_failIfAppExits ≠ 0 then
          (Outcome.exited APP_EXITED, s)
        else
          match (if s.g_checkApplicationExitCode then CheckApplicationExitCode t.exitCodeQuery s
                 else (none, s)) with
          | (some status, s) => (Outcome.exited status, s)
          | (none, s) =>
            let s := SetEvent s
            let s := emit (Call.sleep 1000) s
            ServiceWorkerThread ts s
      else
        let s := emit (Call.sleep 1000) s
        ServiceWorkerThread ts s
    else
      (Outcome.returned ERROR_SUCCESS, s)

/-- Results of the operating-system calls made by `ServiceMain` before the
worker starts: allocation, handler registration (`0` is `NULL`), event
creation, the registry reads of the `Parameters` key (`none` when the read
fails), process and thread creation, and the value of `GetLastError()` on the
failing call. -/
structure StartupEnv where
  callocOk : Bool
  registerServiceCtrlHandler : Nat
  createEvent : Bool
  regOpenKeyEx : Bool
  Application : Option String
  AppParameters : Option String
  AppEnvironment : Option String
  AppDirectory : Option String
  AppExitCode : Option DWORD
  AppRunsForever : Option DWORD
  createProcess : Option PROCESS_INFORMATION
  createThread : Bool
  lastError : DWORD
deriving DecidableEq, Repr

/-- Lines 132-266.  `ticks` drives the worker thread that `ServiceMain` waits
for.  Parameters read as `none` leave the zeroed buffer; an environment of
`none` is the supervisor's own environment block; a directory of `none` is
`NULL`.  The registry reads themselves are not recorded in the trace, and the
length limit of `wsprintf` on the command line is not modelled. -/
def ServiceMain (e : StartupEnv) (ticks : List Tick) (s : State) : Outcome Unit × State :=
  if e.callocOk = false then
    (Outcome.returned (), ServiceSetState 0 SERVICE_STOPPED e.lastError s)
  else
    let s := { s with g_StatusHandle := e.registerServiceCtrlHandler }
    if s.g_StatusHandle = 0 then
      (Outcome.returned (), ServiceSetState 0 SERVICE_STOPPED e.lastError s)
    else
      let s := { s with g_ServiceStopEvent := if e.createEvent then some false else none }
      if s.g_ServiceStopEvent = none then
        (Outcome.returned (), ServiceSetState 0 SERVICE_STOPPED e.lastError s)
      else if e.regOpenKeyEx = false then
        (Outcome.returned (), ServiceSetState 0 SERVICE_STOPPED 0 s)
      else
        match e.Application with
        | none => (Outcome.returned (), ServiceSetState 0 SERVICE_STOPPED 0 s)
        | some applicationString =>
          let applicationParameters := e.AppParameters.getD ""
          let s :=
            match e.AppExitCode with
            | some code =>
              { s with g_applicationNormalExitCode := code, g_checkApplicationExitCode := true }
            | none => s
          let s := { s with g_failIfAppExits := e.AppRunsForever.getD 0 }
          let appStringWithParams := applicationString ++ " " ++ applicationParameters
          let s := emit (Call.createProcess appStringWithParams e.AppEnvironment e.AppDirectory
            e.createProcess.isSome) s
          match e.createProcess with
          | some processInformation =>
            let s := { s with g_Process := processInformation }
            let s := ServiceSetState SERVICE_ACCEPT_STOP SERVICE_RUNNING 0 s
            let s := emit (Call.createThread e.createThread) s
            if e.createThread = false then
              (Outcome.returned (), ServiceSetState 0 SERVICE_STOPPED e.lastError s)
            else
              match ServiceWorkerThread ticks s with
              | (Outcome.returned _, s) =>
                (Outcome.returned (), ServiceSetState 0 SERVICE_STOPPED 0 (CloseStopEvent s))
              | (Outcome.exited status, s) => (Outcome.exited status, s)
              | (Outcome.running, s) => (Outcome.running, s)
          | none =>
            (Outcome.returned (), ServiceSetState 0 SERVICE_STOPPED 0 (CloseStopEvent s))

/-! ## Worked examples -/

/-- A start-up in which every call succeeds; the registry holds
`Application`, `AppExitCode = 0` and `AppRunsForever = 1`. -/
def foreverEnv : StartupEnv :=
  { callocOk := true
    registerServiceCtrlHandler := 1
    createEvent := true
    regOpenKeyEx := true
    Application := some "C:/svc/app.exe"
    AppParameters := some "--serve"
    AppEnvironment := none
    AppDirectory := none
    AppExitCode := some 0
    AppRunsForever := some 1
    createProcess := some { hProcess := 100, hThread := 101, dwProcessId := 7, dwThreadId := 8 }
    createThread := true
    lastError := 0 }

/-- The same start-up with `AppRunsForever` absent: only `AppExitCode = 0` is
configured. -/
def checkedEnv : StartupEnv :=
  { foreverEnv with AppRunsForever := none }

/-- The same start-up with neither `AppExitCode` nor `AppRunsForever`. -/
def plainEnv : StartupEnv :=
  { foreverEnv with AppRunsForever := none, AppExitCode := none }

/-- The state in which the worker starts polling under `foreverEnv`. -/
def foreverState : State := (ServiceMain foreverEnv [] initialState).2

/-- The state in which the worker starts polling under `checkedEnv`. -/
def checkedState : State := (ServiceMain checkedEnv [] initialState).2

/-- The state in which the worker starts polling under `plainEnv`. -/
def plainState : State := (ServiceMain plainEnv [] initialState).2

/-- A poll at which no control request is pending and the child is found
exited with code 0. -/
def exitZeroTick : Tick := { controls := [], processWait := WAIT_OBJECT_0, exitCodeQuery := some 0 }

/-- A poll at which no control request is pending and the child is found
exited with code 42. -/
def exitFortyTwoTick : Tick :=
  { controls := [], processWait := WAIT_OBJECT_0, exitCodeQuery := some 42 }

/-- A poll at which no control request is pending and the child is still
running. -/
def aliveTick : Tick := { controls := [], processWait := WAIT_TIMEOUT, exitCodeQuery := none }

/-- A poll before which the host delivered Stop; the terminated child is
found exited with code 0. -/
def stopTick : Tick :=
  { controls := [{ code := SERVICE_CONTROL_STOP, terminateResult := true }]
    processWait := WAIT_OBJECT_0
    exitCodeQuery := some 0 }

/-- The host delivers Stop and afterwards Continue. -/
def stopThenContinue : List Control :=
  [{ code := SERVICE_CONTROL_STOP, terminateResult := true },
   { code := SERVICE_CONTROL_CONTINUE, terminateResult := true }]

/-- The host delivers Stop twice; the second `TerminateProcess` fails because
the child is already gone. -/
def stopTwice : List Control :=
  [{ code := SERVICE_CONTROL_STOP, terminateResult := true },
   { code := SERVICE_CONTROL_STOP, terminateResult := false }]

/-- A poll at which the probe of the child's handle fails. -/
def failedProbeTick : Tick := { controls := [], processWait := WAIT_FAILED, exitCodeQuery := none }

/-- A poll at which the child is found exited and `GetExitCodeProcess` would
return `FALSE`. -/
def failedQueryTick : Tick :=
  { controls := [], processWait := WAIT_OBJECT_0, exitCodeQuery := none }

/-- A start-up that reaches `CreateProcess`, which fails with
`ERROR_FILE_NOT_FOUND` (2). -/
def launchFailureEnv : StartupEnv :=
  { foreverEnv with createProcess := none, lastError := 2 }

/-- A start-up in which the `Application` value cannot be read. -/
def missingApplicationEnv : StartupEnv :=
  { foreverEnv with Application := none, lastError := 2 }

/-! ## Observers on the trace -/

/-- The statuses handed to `SetServiceStatus`, oldest first. -/
def published (tr : List Call) : List SERVICE_STATUS :=
  tr.filterMap (fun c => match c with
    | Call.setServiceStatus st => some st
    | _ => none)

/-- A status advertises Stop when the `SERVICE_ACCEPT_STOP` bit of its
accepted-controls mask is set. -/
def acceptsStop (st : SERVICE_STATUS) : Bool :=
  st.dwControlsAccepted &&& SERVICE_ACCEPT_STOP != 0

/-- The state `s2` extends `s1` quietly: its trace is the trace of `s1`
followed by calls among which no published status has a non-zero
accepted-controls mask, the stop event exists in `s2` iff it exists in `s1`,
and the configuration globals and the process information are the same. -/
def Quiet (s1 s2 : State) : Prop :=
  (∃ new : List Call, s2.trace = s1.trace ++ new ∧
    ∀ st ∈ published new, st.dwControlsAccepted = 0) ∧
  s2.g_ServiceStopEvent.isSome = s1.g_ServiceStopEvent.isSome ∧
  s2.g_failIfAppExits = s1.g_failIfAppExits ∧
  s2.g_checkApplicationExitCode = s1.g_checkApplicationExitCode ∧
  s2.g_applicationNormalExitCode = s1.g_applicationNormalExitCode ∧
  s2.g_Process = s1.g_Process

/-! ## Effect of the primitives on each global -/

@[simp] theorem emit_g_StatusHandle (c : Call) (s : State) :
    (emit c s).g_StatusHandle = s.g_StatusHandle := rfl
@[simp] theorem emit_g_ServiceStopEvent (c : Call) (s : State) :
    (emit c s).g_ServiceStopEvent = s.g_ServiceStopEvent := rfl
@[simp] theorem emit_g_Process (c : Call) (s : State) :
    (emit c s).g_Process = s.g_Process := rfl
@[simp] theorem emit_g_checkApplicationExitCode (c : Call) (s : State) :
    (emit c s).g_checkApplicationExitCode = s.g_checkApplicationExitCode := rfl
@[simp] theorem emit_g_applicationNormalExitCode (c : Call) (s : State) :
    (emit c s).g_applicationNormalExitCode = s.g_applicationNormalExitCode := rfl
@[simp] theorem emit_g_failIfAppExits (c : Call) (s : State) :
    (emit c s).g_failIfAppExits = s.g_failIfAppExits := rfl
@[simp] theorem emit_trace (c : Call) (s : State) :
    (emit c s).trace = s.trace ++ [c] := rfl

@[simp] theorem SetEvent_g_StatusHandle (s : State) :
    (SetEvent s).g_StatusHandle = s.g_StatusHandle := rfl
@[simp] theorem SetEvent_g_ServiceStopEvent (s : State) :
    (SetEvent s).g_ServiceStopEvent = s.g_ServiceStopEvent.map (fun _ => true) := rfl
@[simp] theorem SetEvent_g_Process (s : State) :
    (SetEvent s).g_Process = s.g_Process := rfl
@[simp] theorem SetEvent_g_checkApplicationExitCode (s : State) :
    (SetEvent s).g_checkApplicationExitCode = s.g_checkApplicationExitCode := rfl
@[simp] theorem SetEvent_g_applicationNormalExitCode (s : State) :
    (SetEvent s).g_applicationNormalExitCode = s.g_applicationNormalExitCode := rfl
@[simp] theorem SetEvent_g_failIfAppExits (s : State) :
    (SetEvent s).g_failIfAppExits = s.g_failIfAppExits := rfl
@[simp] theorem SetEvent_trace (s : State) :
    (SetEvent s).trace = s.trace ++ [Call.setEvent] := rfl

@[simp] theorem ServiceSetState_g_StatusHandle (a n x : DWORD) (s : State) :
    (ServiceSetState a n x s).g_StatusHandle = s.g_StatusHandle := rfl
@[simp] theorem ServiceSetState_g_ServiceStopEvent (a n x : DWORD) (s : State) :
    (ServiceSetState a n x s).g_ServiceStopEvent = s.g_ServiceStopEvent := rfl
@[simp] theorem ServiceSetState_g_Process (a n x : DWORD) (s : State) :
    (ServiceSetState a n x s).g_Process = s.g_Process := rfl
@[simp] theorem ServiceSetState_g_checkApplicationExitCode (a n x : DWORD) (s : State) :
    (ServiceSetState a n x s).g_checkApplicationExitCode = s.g_checkApplicationExitCode := rfl
@[simp] theorem ServiceSetState_g_applicationNormalExitCode (a n x : DWORD) (s : State) :
    (ServiceSetState a n x s).g_applicationNormalExitCode = s.g_applicationNormalExitCode := rfl
@[simp] theorem ServiceSetState_g_failIfAppExits (a n x : DWORD) (s : State) :
    (ServiceSetState a n x s).g_failIfAppExits = s.g_failIfAppExits := rfl
@[simp] theorem ServiceSetState_trace (a n x : DWORD) (s : State) :
    (ServiceSetState a n x s).trace =
      s.trace ++ [Call.setServiceStatus (serviceStatus a n x)] := rfl

@[simp] theorem CloseStopEvent_g_ServiceStopEvent (s : State) :
    (CloseStopEvent s).g_ServiceStopEvent = none := rfl
@[simp] theorem CloseStopEvent_trace (s : State) :
    (CloseStopEvent s).trace = s.trace ++ [Call.closeHandle] := rfl

/-! ## Frame lemmas for the control handler -/

theorem ServiceCtrlHandler_globals (c : DWORD) (r : Bool) (s : State) :
    (ServiceCtrlHandler c r s).g_StatusHandle = s.g_StatusHandle ∧
    (ServiceCtrlHandler c r s).g_Process = s.g_Process ∧
    (ServiceCtrlHandler c r s).g_checkApplicationExitCode = s.g_checkApplicationExitCode ∧
    (ServiceCtrlHandler c r s).g_applicationNormalExitCode = s.g_applicationNormalExitCode ∧
    (ServiceCtrlHandler c r s).g_failIfAppExits = s.g_failIfAppExits := by
  unfold ServiceCtrlHandler
  split_ifs <;> simp

theorem ServiceCtrlHandler_event (c : DWORD) (r : Bool) (s : State) :
    (ServiceCtrlHandler c r s).g_ServiceStopEvent =
      if c = SERVICE_CONTROL_STOP then s.g_ServiceStopEvent.map (fun _ => true)
      else s.g_ServiceStopEvent := by
  unfold ServiceCtrlHandler
  split_ifs <;> simp

theorem deliver_nil (s : State) : deliver [] s = s := rfl

theorem deliver_cons (c : Control) (cs : List Control) (s : State) :
    deliver (c :: cs) s = deliver cs (ServiceCtrlHandler c.code c.terminateResult s) := rfl

theorem deliver_globals (cs : List Control) (s : State) :
    (deliver cs s).g_StatusHandle = s.g_StatusHandle ∧
    (deliver cs s).g_Process = s.g_Process ∧
    (deliver cs s).g_checkApplicationExitCode = s.g_checkApplicationExitCode ∧
    (deliver cs s).g_applicationNormalExitCode = s.g_applicationNormalExitCode ∧
    (deliver cs s).g_failIfAppExits = s.g_failIfAppExits := by
  induction cs generalizing s with
  | nil => simp [deliver_nil]
  | cons c cs ih =>
    rw [deliver_cons]
    obtain ⟨h1, h2, h3, h4, h5⟩ := ih (ServiceCtrlHandler c.code c.terminateResult s)
    obtain ⟨k1, k2, k3, k4, k5⟩ := ServiceCtrlHandler_globals c.code c.terminateResult s
    exact ⟨h1.trans k1, h2.trans k2, h3.trans k3, h4.trans k4, h5.trans k5⟩

theorem deliver_event_set (cs : List Control) (s : State)
    (h : s.g_ServiceStopEvent = some true) :
    (deliver cs s).g_ServiceStopEvent = some true := by
  induction cs generalizing s with
  | nil => simpa [deliver_nil] using h
  | cons c cs ih =>
    rw [deliver_cons]
    apply ih
    rw [ServiceCtrlHandler_event]
    split_ifs <;> simp [h]

theorem deliver_event_isSome (cs : List Control) (s : State) :
    (deliver cs s).g_ServiceStopEvent.isSome = s.g_ServiceStopEvent.isSome := by
  induction cs generalizing s with
  | nil => simp [deliver_nil]
  | cons c cs ih =>
    rw [deliver_cons, ih, ServiceCtrlHandler_event]
    split_ifs <;> simp

theorem WaitForStopEvent_eq (s : State) :
    WaitForStopEvent s = WAIT_OBJECT_0 ↔ s.g_ServiceStopEvent = some true := by
  unfold WaitForStopEvent
  rcases h : s.g_ServiceStopEvent with _ | b
  · simp [WAIT_FAILED, WAIT_OBJECT_0]
  · cases b <;> simp [WAIT_TIMEOUT, WAIT_OBJECT_0]

/-! ## The worker loop, case by case -/

theorem worker_stop (t : Tick) (ts : List Tick) (s : State)
    (hstop : (deliver t.controls s).g_ServiceStopEvent = some true) :
    ServiceWorkerThread (t :: ts) s = (Outcome.returned ERROR_SUCCESS, deliver t.controls s) := by
  rw [ServiceWorkerThread]
  simp [(WaitForStopEvent_eq _).mpr hstop]

theorem worker_alive (t : Tick) (ts : List Tick) (s : State)
    (hstop : (deliver t.controls s).g_ServiceStopEvent ≠ some true)
    (hwait : t.processWait ≠ WAIT_OBJECT_0) :
    ServiceWorkerThread (t :: ts) s =
      ServiceWorkerThread ts (emit (Call.sleep 1000)
        (emit (Call.waitForProcess (deliver t.controls s).g_Process.hProcess t.processWait)
          (deliver t.controls s))) := by
  rw [ServiceWorkerThread]
  have h : WaitForStopEvent (deliver t.controls s) ≠ WAIT_OBJECT_0 :=
    fun hh => hstop ((WaitForStopEvent_eq _).mp hh)
  simp [h, hwait]

theorem worker_forever (t : Tick) (ts : List Tick) (s : State)
    (hstop : (deliver t.controls s).g_ServiceStopEvent ≠ some true)
    (hwait : t.processWait = WAIT_OBJECT_0)
    (hforever : s.g_failIfAppExits ≠ 0) :
    ServiceWorkerThread (t :: ts) s =
      (Outcome.exited APP_EXITED,
        emit (Call.waitForProcess (deliver t.controls s).g_Process.hProcess WAIT_OBJECT_0)
          (deliver t.controls s)) := by
  rw [ServiceWorkerThread]
  have h : WaitForStopEvent (deliver t.controls s) ≠ WAIT_OBJECT_0 :=
    fun hh => hstop ((WaitForStopEvent_eq _).mp hh)
  obtain ⟨_, _, _, _, h5⟩ := deliver_globals t.controls s
  simp [h, hwait, h5, hforever]

theorem worker_unchecked (t : Tick) (ts : List Tick) (s : State)
    (hstop : (deliver t.controls s).g_ServiceStopEvent ≠ some true)
    (hwait : t.processWait = WAIT_OBJECT_0)
    (hforever : s.g_failIfAppExits = 0)
    (hcheck : s.g_checkApplicationExitCode = false) :
    ServiceWorkerThread (t :: ts) s =
      ServiceWorkerThread ts (emit (Call.sleep 1000) (SetEvent
        (emit (Call.waitForProcess (deliver t.controls s).g_Process.hProcess WAIT_OBJECT_0)
          (deliver t.controls s)))) := by
  rw [ServiceWorkerThread]
  have h : WaitForStopEvent (deliver t.controls s) ≠ WAIT_OBJECT_0 :=
    fun hh => hstop ((WaitForStopEvent_eq _).mp hh)
  obtain ⟨_, _, h3, _, h5⟩ := deliver_globals t.controls s
  simp [h, hwait, h5, h3, hforever, hcheck]

theorem worker_checked (t : Tick) (ts : List Tick) (s : State)
    (hstop : (deliver t.controls s).g_ServiceStopEvent ≠ some true)
    (hwait : t.processWait = WAIT_OBJECT_0)
    (hforever : s.g_failIfAppExits = 0)
    (hcheck : s.g_checkApplicationExitCode = true) :
    ServiceWorkerThread (t :: ts) s =
      if t.exitCodeQuery = some s.g_applicationNormalExitCode then
        ServiceWorkerThread ts (emit (Call.sleep 1000) (SetEvent
          (emit (Call.getExitCodeProcess (deliver t.controls s).g_Process.hProcess t.exitCodeQuery)
            (emit (Call.waitForProcess (deliver t.controls s).g_Process.hProcess WAIT_OBJECT_0)
              (deliver t.controls s)))))
      else
        (Outcome.exited APP_FAILED,
          emit (Call.getExitCodeProcess (deliver t.controls s).g_Process.hProcess t.exitCodeQuery)
            (emit (Call.waitForProcess (deliver t.controls s).g_Process.hProcess WAIT_OBJECT_0)
              (deliver t.controls s))) := by
  rw [ServiceWorkerThread]
  have h : WaitForStopEvent (deliver t.controls s) ≠ WAIT_OBJECT_0 :=
    fun hh => hstop ((WaitForStopEvent_eq _).mp hh)
  obtain ⟨_, _, h3, h4, h5⟩ := deliver_globals t.controls s
  simp only [h, hwait, ne_eq, not_false_eq_true, if_true, emit_g_failIfAppExits,
    emit_g_checkApplicationExitCode, h5, h3, hforever, hcheck, not_true_eq_false, if_false]
  rcases hq : t.exitCodeQuery with _ | c
  · simp [CheckApplicationExitCode]
  · by_cases hc : c = s.g_applicationNormalExitCode
    · simp [CheckApplicationExitCode, hc, h4]
    · simp [CheckApplicationExitCode, hc, h4]

/-- Observations after a prefix that leaves the worker polling continue the
same run. -/
theorem ServiceWorkerThread_append (pre rest : List Tick) (s s1 : State)
    (h : ServiceWorkerThread pre s = (Outcome.running, s1)) :
    ServiceWorkerThread (pre ++ rest) s = ServiceWorkerThread rest s1 := by
  induction pre generalizing s with
  | nil =>
    simp [ServiceWorkerThread] at h
    simp [h]
  | cons t ts ih =>
    simp only [List.cons_append]
    by_cases hstop : (deliver t.controls s).g_ServiceStopEvent = some true
    · rw [worker_stop t ts s hstop] at h
      simp at h
    · by_cases hwait : t.processWait = WAIT_OBJECT_0
      · by_cases hforever : s.g_failIfAppExits = 0
        · cases hcheck : s.g_checkApplicationExitCode
          · rw [worker_unchecked t _ s hstop hwait hforever hcheck] at h ⊢
            exact ih _ h
          · rw [worker_checked t _ s hstop hwait hforever hcheck] at h ⊢
            split_ifs at h ⊢
            · exact ih _ h
            · simp at h
        · rw [worker_forever t ts s hstop hwait hforever] at h
          simp at h
      · rw [worker_alive t _ s hstop hwait] at h ⊢
        exact ih _ h

/-! ## ServiceMain while the worker is polling -/

/-- A run of `ServiceMain` that is still polling has launched the child and
started the worker in a state `sL` whose stop event exists; the rest of
`ServiceMain` only depends on how the worker ends. -/
theorem ServiceMain_running (e : StartupEnv) (pre : List Tick) (s0 s : State)
    (h : ServiceMain e pre s0 = (Outcome.running, s)) :
    ∃ sL : State, ServiceWorkerThread pre sL = (Outcome.running, s) ∧
      sL.g_ServiceStopEvent = some false ∧
      sL.g_failIfAppExits = e.AppRunsForever.getD 0 ∧
      (∃ cmd env dir, sL.trace = s0.trace ++ [Call.createProcess cmd env dir true,
        Call.setServiceStatus (serviceStatus SERVICE_ACCEPT_STOP SERVICE_RUNNING 0),
        Call.createThread true]) ∧
      ∀ ticks, ServiceMain e ticks s0 =
        match ServiceWorkerThread ticks sL with
        | (Outcome.returned _, s1) =>
          (Outcome.returned (), ServiceSetState 0 SERVICE_STOPPED 0 (CloseStopEvent s1))
        | (Outcome.exited status, s1) => (Outcome.exited status, s1)
        | (Outcome.running, s1) => (Outcome.running, s1) := by
  cases h1 : e.callocOk with
  | false => simp [ServiceMain, h1] at h
  | true =>
  by_cases h2 : e.registerServiceCtrlHandler = 0
  · simp [ServiceMain, h1, h2] at h
  cases h3 : e.createEvent with
  | false => simp [ServiceMain, h1, h2, h3] at h
  | true =>
  cases h4 : e.regOpenKeyEx with
  | false => simp [ServiceMain, h1, h2, h3, h4] at h
  | true =>
  cases h5 : e.Application with
  | none => simp [ServiceMain, h1, h2, h3, h4, h5] at h
  | some app =>
  cases h6 : e.createProcess with
  | none => simp [ServiceMain, h1, h2, h3, h4, h5, h6] at h
  | some pinfo =>
  cases h7 : e.createThread with
  | false => simp [ServiceMain, h1, h2, h3, h4, h5, h6, h7] at h
  | true =>
  cases h8 : e.AppExitCode with
  | none =>
    simp only [ServiceMain, h1, h2, h3, h4, h5, h6, h7, h8] at h ⊢
    simp only [Bool.true_eq_false, if_false, if_true, reduceCtorEq] at h ⊢
    split at h
    · simp at h
    · simp at h
    · rename_i s1 hw
      simp only [Prod.mk.injEq, true_and] at h
      subst h
      exact ⟨_, hw, rfl, rfl, ⟨app ++ " " ++ e.AppParameters.getD "", e.AppEnvironment,
        e.AppDirectory, by simp [ServiceSetState]⟩, fun _ => rfl⟩
  | some code =>
    simp only [ServiceMain, h1, h2, h3, h4, h5, h6, h7, h8] at h ⊢
    simp only [Bool.true_eq_false, if_false, if_true, reduceCtorEq] at h ⊢
    split at h
    · simp at h
    · simp at h
    · rename_i s1 hw
      simp only [Prod.mk.injEq, true_and] at h
      subst h
      exact ⟨_, hw, rfl, rfl, ⟨app ++ " " ++ e.AppParameters.getD "", e.AppEnvironment,
        e.AppDirectory, by simp [ServiceSetState]⟩, fun _ => rfl⟩

/-- Further observations continue a run of `ServiceMain` that is still
polling: the outcome is decided by the worker resumed in the state reached. -/
theorem ServiceMain_extend (e : StartupEnv) (pre rest : List Tick) (s0 s : State)
    (h : ServiceMain e pre s0 = (Outcome.running, s)) :
    ServiceMain e (pre ++ rest) s0 =
      match ServiceWorkerThread rest s with
      | (Outcome.returned _, s1) =>
        (Outcome.returned (), ServiceSetState 0 SERVICE_STOPPED 0 (CloseStopEvent s1))
      | (Outcome.exited status, s1) => (Outcome.exited status, s1)
      | (Outcome.running, s1) => (Outcome.running, s1) := by
  obtain ⟨sL, hw, _, _, _, hall⟩ := ServiceMain_running e pre s0 s h
  rw [hall (pre ++ rest), ServiceWorkerThread_append pre rest sL s hw]

/-! ## Published statuses -/

theorem published_append (a b : List Call) : published (a ++ b) = published a ++ published b := by
  simp [published, List.filterMap_append]

theorem published_setServiceStatus (st : SERVICE_STATUS) :
    published [Call.setServiceStatus st] = [st] := rfl

/-- The statuses one run of the control handler publishes. -/
theorem ServiceCtrlHandler_published (c : DWORD) (r : Bool) (s : State) :
    published (ServiceCtrlHandler c r s).trace = published s.trace ++
      (if c = SERVICE_CONTROL_STOP then [serviceStatus 0 SERVICE_STOPPED 0]
       else if c = SERVICE_CONTROL_PAUSE then [serviceStatus 0 SERVICE_PAUSED 0]
       else if c = SERVICE_CONTROL_CONTINUE then [serviceStatus 0 SERVICE_RUNNING 0]
       else []) := by
  unfold ServiceCtrlHandler
  split_ifs <;> simp [published_append, published]

/-! ## What the handler and the worker leave unchanged -/

theorem Quiet.refl (s : State) : Quiet s s :=
  ⟨⟨[], by simp, by simp [published]⟩, rfl, rfl, rfl, rfl, rfl⟩

theorem Quiet.trans {s1 s2 s3 : State} (h12 : Quiet s1 s2) (h23 : Quiet s2 s3) :
    Quiet s1 s3 := by
  obtain ⟨⟨n1, ht1, hq1⟩, he1, hf1, hc1, hn1, hp1⟩ := h12
  obtain ⟨⟨n2, ht2, hq2⟩, he2, hf2, hc2, hn2, hp2⟩ := h23
  refine ⟨⟨n1 ++ n2, by rw [ht2, ht1, List.append_assoc], ?_⟩, he2.trans he1, hf2.trans hf1,
    hc2.trans hc1, hn2.trans hn1, hp2.trans hp1⟩
  intro st hst
  rw [published_append] at hst
  rcases List.mem_append.mp hst with h | h
  · exact hq1 st h
  · exact hq2 st h

/-- Appending a call that publishes nothing is quiet. -/
theorem quiet_emit (c : Call) (s : State) (hc : published [c] = []) : Quiet s (emit c s) :=
  ⟨⟨[c], rfl, by simp [hc]⟩, rfl, rfl, rfl, rfl, rfl⟩

theorem quiet_SetEvent (s : State) : Quiet s (SetEvent s) :=
  ⟨⟨[Call.setEvent], rfl, by simp [published]⟩, by simp, rfl, rfl, rfl, rfl⟩

theorem quiet_ServiceCtrlHandler (c : DWORD) (r : Bool) (s : State) :
    Quiet s (ServiceCtrlHandler c r s) := by
  obtain ⟨_, k2, k3, k4, k5⟩ := ServiceCtrlHandler_globals c r s
  refine ⟨?_, ?_, k5, k3, k4, k2⟩
  · unfold ServiceCtrlHandler
    split_ifs
    · exact ⟨[Call.setEvent, Call.terminateProcess s.g_Process.hProcess 0 r,
        Call.setServiceStatus (serviceStatus 0 SERVICE_STOPPED 0)], by simp,
        by simp [published, serviceStatus]⟩
    · exact ⟨[Call.setServiceStatus (serviceStatus 0 SERVICE_PAUSED 0)], by simp,
        by simp [published, serviceStatus]⟩
    · exact ⟨[Call.setServiceStatus (serviceStatus 0 SERVICE_RUNNING 0)], by simp,
        by simp [published, serviceStatus]⟩
    · exact ⟨[], by simp, by simp [published]⟩
  · rw [ServiceCtrlHandler_event]
    split_ifs <;> simp

theorem quiet_deliver (cs : List Control) (s : State) : Quiet s (deliver cs s) := by
  induction cs generalizing s with
  | nil => exact Quiet.refl s
  | cons c cs ih =>
    rw [deliver_cons]
    exact (quiet_ServiceCtrlHandler c.code c.terminateResult s).trans (ih _)

/-- Whatever the observations, the worker only extends the trace quietly. -/
theorem quiet_ServiceWorkerThread (ticks : List Tick) (s : State) :
    Quiet s (ServiceWorkerThread ticks s).2 := by
  induction ticks generalizing s with
  | nil => exact Quiet.refl s
  | cons t ts ih =>
    have hd := quiet_deliver t.controls s
    have hprobe : ∀ w, Quiet s
        (emit (Call.waitForProcess (deliver t.controls s).g_Process.hProcess w)
          (deliver t.controls s)) :=
      fun w => hd.trans (quiet_emit _ _ rfl)
    by_cases hstop : (deliver t.controls s).g_ServiceStopEvent = some true
    · rw [worker_stop t ts s hstop]
      exact hd
    · by_cases hwait : t.processWait = WAIT_OBJECT_0
      · by_cases hforever : s.g_failIfAppExits = 0
        · cases hcheck : s.g_checkApplicationExitCode
          · rw [worker_unchecked t _ s hstop hwait hforever hcheck]
            exact (((hprobe _).trans (quiet_SetEvent _)).trans
              (quiet_emit (Call.sleep 1000) _ rfl)).trans (ih _)
          · rw [worker_checked t _ s hstop hwait hforever hcheck]
            have hq := (hprobe WAIT_OBJECT_0).trans
              (quiet_emit (Call.getExitCodeProcess (deliver t.controls s).g_Process.hProcess
                t.exitCodeQuery) _ rfl)
            split_ifs
            · exact ((hq.trans (quiet_SetEvent _)).trans
                (quiet_emit (Call.sleep 1000) _ rfl)).trans (ih _)
            · exact hq
        · rw [worker_forever t ts s hstop hwait hforever]
          exact hprobe _
      · rw [worker_alive t _ s hstop hwait]
        exact ((hprobe _).trans (quiet_emit (Call.sleep 1000) _ rfl)).trans (ih _)

/-- While `ServiceMain` is polling, the stop event exists: in every state
reached after a successful launch, and after any further control requests,
the handle names an event object. -/
theorem ServiceMain_running_event (e : StartupEnv) (pre : List Tick) (s0 s : State)
    (cs : List Control) (h : ServiceMain e pre s0 = (Outcome.running, s)) :
    (deliver cs s).g_ServiceStopEvent.isSome = true := by
  obtain ⟨sL, hw, hev, _, _, _⟩ := ServiceMain_running e pre s0 s h
  have hq := quiet_ServiceWorkerThread pre sL
  rw [hw] at hq
  rw [(quiet_deliver cs s).2.1, hq.2.1, hev]
  rfl

/-- While `ServiceMain` is polling, `g_failIfAppExits` holds the value read
from `AppRunsForever` (0 when the read failed): the hypothesis on
`g_failIfAppExits` in the claims about the worker is a hypothesis on the
registry configuration. -/
theorem ServiceMain_running_failIfAppExits (e : StartupEnv) (pre : List Tick) (s0 s : State)
    (h : ServiceMain e pre s0 = (Outcome.running, s)) :
    s.g_failIfAppExits = e.AppRunsForever.getD 0 := by
  obtain ⟨sL, hw, _, hf, _, _⟩ := ServiceMain_running e pre s0 s h
  have hq := quiet_ServiceWorkerThread pre sL
  rw [hw] at hq
  rw [hq.2.2.1, hf]

/-! ## Claims about the monitor loop -/

/-- C1: with `g_failIfAppExits` non-zero (AppRunsForever read as true), when
the worker finds the stop event unsignalled and the child's handle signalled,
it calls `exit(APP_EXITED)`, that is the process ends with code 2.  This holds
for every `g_checkApplicationExitCode`, every `g_applicationNormalExitCode` and
every result of the exit-code query, which is not even issued: the only call
the worker makes is the probe of the child.  In any run of `ServiceMain` that
has reached the state `s` while polling, the flag is the value read from
`AppRunsForever`, and the outcome of `ServiceMain` is the same exit with
code 2. -/
theorem runForever_exit_is_forced_failure (s : State) (t : Tick) (ts : List Tick)
    (hforever : s.g_failIfAppExits ≠ 0)
    (hstop : (deliver t.controls s).g_ServiceStopEvent ≠ some true)
    (hexit : t.processWait = WAIT_OBJECT_0) :
    ServiceWorkerThread (t :: ts) s =
      (Outcome.exited 2,
        emit (Call.waitForProcess (deliver t.controls s).g_Process.hProcess WAIT_OBJECT_0)
          (deliver t.controls s)) ∧
    ∀ (e : StartupEnv) (pre : List Tick) (s0 : State),
      ServiceMain e pre s0 = (Outcome.running, s) →
      e.AppRunsForever = some s.g_failIfAppExits ∧
      ServiceMain e (pre ++ t :: ts) s0 =
        (Outcome.exited 2,
          emit (Call.waitForProcess (deliver t.controls s).g_Process.hProcess WAIT_OBJECT_0)
            (deliver t.controls s)) := by
  have hw := worker_forever t ts s hstop hexit hforever
  refine ⟨hw, ?_⟩
  intro e pre s0 hrun
  refine ⟨?_, ?_⟩
  · have hf := ServiceMain_running_failIfAppExits e pre s0 s hrun
    cases hv : e.AppRunsForever with
    | none => rw [hv] at hf; exact absurd hf hforever
    | some v => rw [hv] at hf; rw [hf]; rfl
  · rw [ServiceMain_extend e pre (t :: ts) s0 s hrun, hw]
    rfl

/-- Witness for C1: under `foreverEnv` (AppExitCode = 0, AppRunsForever = 1)
the child exits with the expected code 0 at the first poll, and the process
still ends with code 2. -/
theorem runForever_exit_is_forced_failure_witness :
    ServiceMain foreverEnv ([] ++ [exitZeroTick]) initialState =
      (Outcome.exited 2,
        emit (Call.waitForProcess foreverState.g_Process.hProcess WAIT_OBJECT_0) foreverState) :=
  (runForever_exit_is_forced_failure foreverState exitZeroTick []
    (by decide) (by decide) rfl).2 foreverEnv [] initialState rfl |>.2

/-- C2: with `g_failIfAppExits = 0` (runForever false), the stop event
unsignalled and the child found exited with a successfully queried code `c`:
the worker ends the process with code 1 exactly when exit-code checking is
configured and `c` differs from the configured code.  In every other case it
calls no `exit`, signals the stop event, sleeps, and at the next evaluation of
the loop condition returns `ERROR_SUCCESS`; `ServiceMain` then closes the event
and publishes `SERVICE_STOPPED` with exit code 0.  The exit-code query is only
issued when checking is configured. -/
theorem natural_exit_policy (s : State) (t : Tick) (c : DWORD)
    (hforever : s.g_failIfAppExits = 0)
    (hstop : (deliver t.controls s).g_ServiceStopEvent = some false)
    (hexit : t.processWait = WAIT_OBJECT_0)
    (hquery : t.exitCodeQuery = some c) :
    (∀ ts : List Tick, (ServiceWorkerThread (t :: ts) s).1 = Outcome.exited 1 ↔
      (s.g_checkApplicationExitCode = true ∧ c ≠ s.g_applicationNormalExitCode)) ∧
    (∀ (ts : List Tick) (e : StartupEnv) (pre : List Tick) (s0 : State),
      ServiceMain e pre s0 = (Outcome.running, s) →
      ((ServiceMain e (pre ++ t :: ts) s0).1 = Outcome.exited 1 ↔
        (s.g_checkApplicationExitCode = true ∧ c ≠ s.g_applicationNormalExitCode))) ∧
    (¬ (s.g_checkApplicationExitCode = true ∧ c ≠ s.g_applicationNormalExitCode) →
      ∃ sSet : State,
        sSet = SetEvent (if s.g_checkApplicationExitCode = true then
          emit (Call.getExitCodeProcess (deliver t.controls s).g_Process.hProcess (some c))
            (emit (Call.waitForProcess (deliver t.controls s).g_Process.hProcess WAIT_OBJECT_0)
              (deliver t.controls s))
          else
            emit (Call.waitForProcess (deliver t.controls s).g_Process.hProcess WAIT_OBJECT_0)
              (deliver t.controls s)) ∧
        sSet.g_ServiceStopEvent = some true ∧
        ∀ (t2 : Tick) (ts : List Tick),
          ServiceWorkerThread (t :: t2 :: ts) s =
            (Outcome.returned ERROR_SUCCESS, deliver t2.controls (emit (Call.sleep 1000) sSet)) ∧
          ∀ (e : StartupEnv) (pre : List Tick) (s0 : State),
            ServiceMain e pre s0 = (Outcome.running, s) →
            ServiceMain e (pre ++ t :: t2 :: ts) s0 =
              (Outcome.returned (), ServiceSetState 0 SERVICE_STOPPED 0
                (CloseStopEvent (deliver t2.controls (emit (Call.sleep 1000) sSet))))) := by
  have hs : (deliver t.controls s).g_ServiceStopEvent ≠ some true := by simp [hstop]
  -- the worker's behaviour on this tick, by configuration
  have key : ∀ ts : List Tick, ServiceWorkerThread (t :: ts) s =
      if s.g_checkApplicationExitCode = true ∧ c ≠ s.g_applicationNormalExitCode then
        (Outcome.exited 1,
          emit (Call.getExitCodeProcess (deliver t.controls s).g_Process.hProcess (some c))
            (emit (Call.waitForProcess (deliver t.controls s).g_Process.hProcess WAIT_OBJECT_0)
              (deliver t.controls s)))
      else
        ServiceWorkerThread ts (emit (Call.sleep 1000) (SetEvent
          (if s.g_checkApplicationExitCode = true then
            emit (Call.getExitCodeProcess (deliver t.controls s).g_Process.hProcess (some c))
              (emit (Call.waitForProcess (deliver t.controls s).g_Process.hProcess WAIT_OBJECT_0)
                (deliver t.controls s))
          else
            emit (Call.waitForProcess (deliver t.controls s).g_Process.hProcess WAIT_OBJECT_0)
              (deliver t.controls s)))) := by
    intro ts
    cases hcheck : s.g_checkApplicationExitCode
    · rw [worker_unchecked t ts s hs hexit hforever hcheck]
      simp
    · rw [worker_checked t ts s hs hexit hforever hcheck, hquery]
      by_cases hc : c = s.g_applicationNormalExitCode
      · simp [hc]
      · simp [hc, APP_FAILED]
  -- after the worker's own SetEvent the stop event is signalled
  have hset : (SetEvent (if s.g_checkApplicationExitCode = true then
          emit (Call.getExitCodeProcess (deliver t.controls s).g_Process.hProcess (some c))
            (emit (Call.waitForProcess (deliver t.controls s).g_Process.hProcess WAIT_OBJECT_0)
              (deliver t.controls s))
          else
            emit (Call.waitForProcess (deliver t.controls s).g_Process.hProcess WAIT_OBJECT_0)
              (deliver t.controls s))).g_ServiceStopEvent = some true := by
    split_ifs <;> simp [hstop]
  -- the next evaluation of the loop condition returns
  have hret : ∀ (t2 : Tick) (ts : List Tick) (sSet : State),
      sSet.g_ServiceStopEvent = some true →
      ServiceWorkerThread (t2 :: ts) (emit (Call.sleep 1000) sSet) =
        (Outcome.returned ERROR_SUCCESS, deliver t2.controls (emit (Call.sleep 1000) sSet)) := by
    intro t2 ts sSet h
    exact worker_stop t2 ts _ (deliver_event_set _ _ (by simpa using h))
  -- the worker never ends in exit 1 when the policy accepts the exit
  have hiff : ∀ ts : List Tick, (ServiceWorkerThread (t :: ts) s).1 = Outcome.exited 1 ↔
      (s.g_checkApplicationExitCode = true ∧ c ≠ s.g_applicationNormalExitCode) := by
    intro ts
    rw [key ts]
    by_cases hp : s.g_checkApplicationExitCode = true ∧ c ≠ s.g_applicationNormalExitCode
    · simp [hp]
    · rw [if_neg hp]
      simp only [hp, iff_false]
      cases ts with
      | nil => simp [ServiceWorkerThread]
      | cons t2 ts => rw [hret t2 ts _ hset]; simp
  refine ⟨hiff, ?_, ?_⟩
  · intro ts e pre s0 hrun
    rw [ServiceMain_extend e pre (t :: ts) s0 s hrun, ← hiff ts]
    rcases hres : ServiceWorkerThread (t :: ts) s with ⟨o, s1⟩
    cases o <;> simp
  · intro hp
    refine ⟨_, rfl, hset, ?_⟩
    intro t2 ts
    have hw := (key (t2 :: ts)).trans ((if_neg hp).trans (hret t2 ts _ hset))
    refine ⟨hw, ?_⟩
    intro e pre s0 hrun
    rw [ServiceMain_extend e pre (t :: t2 :: ts) s0 s hrun, hw]

/-- C3: if the stop event is signalled when the worker evaluates its loop
condition, the worker returns `ERROR_SUCCESS` at once, whatever
`g_failIfAppExits`, the exit-code configuration, the child's wait result and
its exit code are.  The state it returns is exactly the state left by the
control handlers: the worker issues no probe of the child and no exit-code
query.  `ServiceMain` then returns after publishing `SERVICE_STOPPED` with
exit code 0; the process is not ended by `exit`. -/
theorem stop_signal_preempts_exit_policy (s : State) (t : Tick) (ts : List Tick)
    (hstop : (deliver t.controls s).g_ServiceStopEvent = some true) :
    ServiceWorkerThread (t :: ts) s = (Outcome.returned ERROR_SUCCESS, deliver t.controls s) ∧
    ∀ (e : StartupEnv) (pre : List Tick) (s0 : State),
      ServiceMain e pre s0 = (Outcome.running, s) →
      ServiceMain e (pre ++ t :: ts) s0 =
        (Outcome.returned (),
          ServiceSetState 0 SERVICE_STOPPED 0 (CloseStopEvent (deliver t.controls s))) := by
  have hw := worker_stop t ts s hstop
  refine ⟨hw, ?_⟩
  intro e pre s0 hrun
  rw [ServiceMain_extend e pre (t :: ts) s0 s hrun, hw]

/-- Witness for C2: with only `AppExitCode = 0` configured, a child exit with
code 42 ends the process with code 1 and a child exit with code 0 makes
`ServiceMain` return normally; with no `AppExitCode` configured, a child exit
with code 42 makes `ServiceMain` return normally. -/
theorem natural_exit_policy_witness :
    (ServiceMain checkedEnv ([] ++ [exitFortyTwoTick]) initialState).1 = Outcome.exited 1 ∧
    (ServiceMain checkedEnv ([] ++ [exitZeroTick, aliveTick]) initialState).1 =
      Outcome.returned () ∧
    (ServiceMain plainEnv ([] ++ [exitFortyTwoTick, aliveTick]) initialState).1 =
      Outcome.returned () := by
  refine ⟨?_, ?_, ?_⟩
  · exact ((natural_exit_policy checkedState exitFortyTwoTick 42 rfl (by decide) rfl rfl).2.1
      [] checkedEnv [] initialState rfl).mpr (by decide)
  · obtain ⟨sSet, _, _, h⟩ :=
      (natural_exit_policy checkedState exitZeroTick 0 rfl (by decide) rfl rfl).2.2 (by decide)
    rw [(h aliveTick []).2 checkedEnv [] initialState rfl]
  · obtain ⟨sSet, _, _, h⟩ :=
      (natural_exit_policy plainState exitFortyTwoTick 42 rfl (by decide) rfl rfl).2.2
        (by decide)
    rw [(h aliveTick []).2 plainEnv [] initialState rfl]

/-- Witness for C3: under `foreverEnv` a Stop is delivered before the poll at
which the (terminated) child would be found exited; `ServiceMain` returns. -/
theorem stop_signal_preempts_exit_policy_witness :
    ServiceMain foreverEnv ([] ++ [stopTick]) initialState =
      (Outcome.returned (),
        ServiceSetState 0 SERVICE_STOPPED 0
          (CloseStopEvent (deliver stopTick.controls foreverState))) :=
  (stop_signal_preempts_exit_policy foreverState stopTick [] (by decide)).2
    foreverEnv [] initialState rfl

/-! ## Claims about the control handler -/

/-- C4: in every state in which the stop event exists (from `CreateEvent`
until `CloseHandle`, hence in every state after a successful launch while
`ServiceMain` supervises), the Stop control signals the stop event, issues
`TerminateProcess` on the child's handle and publishes `SERVICE_STOPPED` with
exit code 0 and no accepted controls.  Nothing depends on the result of
`TerminateProcess`, and a second Stop issues the same three calls and leaves
the event signalled. -/
theorem stop_control_effect (s : State) (r1 r2 : Bool)
    (hev : s.g_ServiceStopEvent.isSome = true) :
    (ServiceCtrlHandler SERVICE_CONTROL_STOP r1 s).g_ServiceStopEvent = some true ∧
    (ServiceCtrlHandler SERVICE_CONTROL_STOP r1 s).trace = s.trace ++
      [Call.setEvent, Call.terminateProcess s.g_Process.hProcess 0 r1,
       Call.setServiceStatus (serviceStatus 0 SERVICE_STOPPED 0)] ∧
    (ServiceCtrlHandler SERVICE_CONTROL_STOP r2
      (ServiceCtrlHandler SERVICE_CONTROL_STOP r1 s)).g_ServiceStopEvent = some true ∧
    (ServiceCtrlHandler SERVICE_CONTROL_STOP r2
      (ServiceCtrlHandler SERVICE_CONTROL_STOP r1 s)).trace =
      (ServiceCtrlHandler SERVICE_CONTROL_STOP r1 s).trace ++
      [Call.setEvent, Call.terminateProcess s.g_Process.hProcess 0 r2,
       Call.setServiceStatus (serviceStatus 0 SERVICE_STOPPED 0)] := by
  obtain ⟨b, hb⟩ := Option.isSome_iff_exists.mp hev
  simp [ServiceCtrlHandler, hb]

/-- Witness for C4: in the state right after a successful launch, a Stop
whose `TerminateProcess` succeeds followed by one whose `TerminateProcess`
fails. -/
theorem stop_control_effect_witness :
    (ServiceCtrlHandler SERVICE_CONTROL_STOP false
      (ServiceCtrlHandler SERVICE_CONTROL_STOP true foreverState)).g_ServiceStopEvent =
      some true :=
  (stop_control_effect foreverState true false
    (ServiceMain_running_event foreverEnv [] initialState foreverState [] rfl)).2.2.1

/-- C9: for every state and every control code other than Stop, the control
handler leaves the stop event, the child's process information and every other
global unchanged, and issues no `SetEvent` and no `TerminateProcess`: Pause
adds exactly one call, publishing `SERVICE_PAUSED`; Continue adds exactly one
call, publishing `SERVICE_RUNNING`; any other code adds no call at all. -/
theorem non_stop_controls_are_advisory (s : State) (code : DWORD) (r : Bool)
    (hcode : code ≠ SERVICE_CONTROL_STOP) :
    (ServiceCtrlHandler code r s).g_ServiceStopEvent = s.g_ServiceStopEvent ∧
    (ServiceCtrlHandler code r s).g_Process = s.g_Process ∧
    (ServiceCtrlHandler code r s).g_StatusHandle = s.g_StatusHandle ∧
    (ServiceCtrlHandler code r s).g_checkApplicationExitCode = s.g_checkApplicationExitCode ∧
    (ServiceCtrlHandler code r s).g_applicationNormalExitCode =
      s.g_applicationNormalExitCode ∧
    (ServiceCtrlHandler code r s).g_failIfAppExits = s.g_failIfAppExits ∧
    (ServiceCtrlHandler code r s).trace = s.trace ++
      (if code = SERVICE_CONTROL_PAUSE then
        [Call.setServiceStatus (serviceStatus 0 SERVICE_PAUSED 0)]
      else if code = SERVICE_CONTROL_CONTINUE then
        [Call.setServiceStatus (serviceStatus 0 SERVICE_RUNNING 0)]
      else []) := by
  obtain ⟨k1, k2, k3, k4, k5⟩ := ServiceCtrlHandler_globals code r s
  refine ⟨?_, k2, k1, k3, k4, k5, ?_⟩
  · rw [ServiceCtrlHandler_event, if_neg hcode]
  · unfold ServiceCtrlHandler
    rw [if_neg hcode]
    split_ifs <;> simp

/-- Witness for C9: a Pause delivered right after a successful launch adds
only the `SERVICE_PAUSED` status to the trace. -/
theorem non_stop_controls_are_advisory_witness :
    (ServiceCtrlHandler SERVICE_CONTROL_PAUSE true foreverState).trace = foreverState.trace ++
      [Call.setServiceStatus (serviceStatus 0 SERVICE_PAUSED 0)] := by
  have h := (non_stop_controls_are_advisory foreverState SERVICE_CONTROL_PAUSE true
    (by decide)).2.2.2.2.2.2
  simpa using h

/-! ## Stopped as a terminal state -/

/-- Counterexample to C5 as stated: after a successful launch the host
delivers Stop and then Continue.  The handler publishes `SERVICE_STOPPED` and
afterwards `SERVICE_RUNNING`. -/
theorem stopped_not_terminal_counterexample :
    (published (deliver stopThenContinue foreverState).trace).map
      (fun st => st.dwCurrentState) = [SERVICE_RUNNING, SERVICE_STOPPED, SERVICE_RUNNING] := by
  decide

/-- C5 (amended): for every state and every sequence of control codes that
contains neither Pause nor Continue, every status the control handler
publishes is `SERVICE_STOPPED`; so if the last published state was Stopped
before the sequence, it is Stopped after it. -/
theorem stopped_kept_without_pause_continue (s : State) (cs : List Control)
    (hcs : ∀ c ∈ cs, c.code ≠ SERVICE_CONTROL_PAUSE ∧ c.code ≠ SERVICE_CONTROL_CONTINUE) :
    (∃ new : List SERVICE_STATUS,
      published (deliver cs s).trace = published s.trace ++ new ∧
      ∀ st ∈ new, st.dwCurrentState = SERVICE_STOPPED) ∧
    (((published s.trace).getLast?).map (fun st => st.dwCurrentState) = some SERVICE_STOPPED →
      ((published (deliver cs s).trace).getLast?).map (fun st => st.dwCurrentState) =
        some SERVICE_STOPPED) := by
  have hnew : ∃ new : List SERVICE_STATUS,
      published (deliver cs s).trace = published s.trace ++ new ∧
      ∀ st ∈ new, st.dwCurrentState = SERVICE_STOPPED := by
    induction cs generalizing s with
    | nil => exact ⟨[], by simp [deliver_nil], by simp⟩
    | cons c cs ih =>
      obtain ⟨hp, hc⟩ := hcs c (List.mem_cons_self _ _)
      obtain ⟨new, hnew, hall⟩ := ih (ServiceCtrlHandler c.code c.terminateResult s)
        (fun x hx => hcs x (List.mem_cons_of_mem _ hx))
      rw [deliver_cons, hnew, ServiceCtrlHandler_published, if_neg hp, if_neg hc,
        List.append_assoc]
      refine ⟨_, rfl, ?_⟩
      intro st hst
      rcases List.mem_append.mp hst with h | h
      · split_ifs at h
        · rw [List.mem_singleton.mp h]; rfl
        · simp at h
      · exact hall st h
  refine ⟨hnew, ?_⟩
  obtain ⟨new, hnew, hall⟩ := hnew
  intro hlast
  rw [hnew]
  rcases List.eq_nil_or_concat new with hnil | ⟨init, lst, hl⟩
  · simpa [hnil] using hlast
  · have hmem : lst ∈ new := by simp [hl]
    simp [hl, List.getLast?_append, hall lst hmem]

/-- Witness for C5 (amended): two Stop requests after a successful launch. -/
theorem stopped_kept_without_pause_continue_witness :
    ((published (deliver stopTwice (deliver stopTwice foreverState)).trace).getLast?).map
      (fun st => st.dwCurrentState) = some SERVICE_STOPPED :=
  (stopped_kept_without_pause_continue (deliver stopTwice foreverState) stopTwice
    (by decide)).2 (by decide)

/-! ## Query failures in the monitor loop -/

/-- Counterexample to C6 as stated.  With only `AppExitCode` configured and
the stop event unsignalled, a failing probe of the child's handle
(`WAIT_FAILED`) makes the worker sleep and poll again: after two such polls it
is still running and has called neither `exit` nor `SetEvent`.  With neither
`AppExitCode` nor `AppRunsForever` configured, a child found exited whose exit
code cannot be queried (`GetExitCodeProcess` would return `FALSE`) is a normal
stop: the worker does not issue the query, signals the stop event and returns
`ERROR_SUCCESS`. -/
theorem query_failure_counterexample :
    ServiceWorkerThread [failedProbeTick, failedProbeTick] checkedState =
      (Outcome.running,
        emit (Call.sleep 1000) (emit (Call.waitForProcess 100 WAIT_FAILED)
          (emit (Call.sleep 1000) (emit (Call.waitForProcess 100 WAIT_FAILED) checkedState)))) ∧
    ServiceWorkerThread [failedQueryTick, aliveTick] plainState =
      (Outcome.returned ERROR_SUCCESS,
        emit (Call.sleep 1000) (SetEvent
          (emit (Call.waitForProcess 100 WAIT_OBJECT_0) plainState))) := by
  decide

/-- C6 (amended): with the stop event unsignalled and the child's handle found
signalled, a failing exit-code query ends the process within the same
iteration, with no sleep and no normal stop: with code 2 when
`g_failIfAppExits` is set (the query is not issued), and with code 1 when it is
unset and exit-code checking is configured (the failed query is the last
call).  The same holds for `ServiceMain` in any run that has reached `s`. -/
theorem failed_exit_code_query_is_failure (s : State) (t : Tick) (ts : List Tick)
    (hstop : (deliver t.controls s).g_ServiceStopEvent ≠ some true)
    (hexit : t.processWait = WAIT_OBJECT_0)
    (hquery : t.exitCodeQuery = none)
    (hcfg : s.g_failIfAppExits ≠ 0 ∨ s.g_checkApplicationExitCode = true) :
    ServiceWorkerThread (t :: ts) s =
      (if s.g_failIfAppExits ≠ 0 then
        (Outcome.exited 2,
          emit (Call.waitForProcess (deliver t.controls s).g_Process.hProcess WAIT_OBJECT_0)
            (deliver t.controls s))
      else
        (Outcome.exited 1,
          emit (Call.getExitCodeProcess (deliver t.controls s).g_Process.hProcess none)
            (emit (Call.waitForProcess (deliver t.controls s).g_Process.hProcess WAIT_OBJECT_0)
              (deliver t.controls s)))) ∧
    ∀ (e : StartupEnv) (pre : List Tick) (s0 : State),
      ServiceMain e pre s0 = (Outcome.running, s) →
      (ServiceMain e (pre ++ t :: ts) s0).1 =
        Outcome.exited (if s.g_failIfAppExits ≠ 0 then 2 else 1) := by
  have hw : ServiceWorkerThread (t :: ts) s =
      (if s.g_failIfAppExits ≠ 0 then
        (Outcome.exited 2,
          emit (Call.waitForProcess (deliver t.controls s).g_Process.hProcess WAIT_OBJECT_0)
            (deliver t.controls s))
      else
        (Outcome.exited 1,
          emit (Call.getExitCodeProcess (deliver t.controls s).g_Process.hProcess none)
            (emit (Call.waitForProcess (deliver t.controls s).g_Process.hProcess WAIT_OBJECT_0)
              (deliver t.controls s)))) := by
    by_cases hforever : s.g_failIfAppExits = 0
    · have hcheck : s.g_checkApplicationExitCode = true := by
        rcases hcfg with h | h
        · exact absurd hforever h
        · exact h
      rw [worker_checked t ts s hstop hexit hforever hcheck, hquery]
      simp [hforever, APP_FAILED]
    · rw [worker_forever t ts s hstop hexit hforever]
      simp [hforever, APP_EXITED]
  refine ⟨hw, ?_⟩
  intro e pre s0 hrun
  rw [ServiceMain_extend e pre (t :: ts) s0 s hrun, hw]
  split_ifs <;> rfl

/-- Witness for C6 (amended): with only `AppExitCode = 0` configured, a child
found exited whose exit code cannot be queried ends the process with code 1. -/
theorem failed_exit_code_query_is_failure_witness :
    (ServiceMain checkedEnv ([] ++ [failedQueryTick]) initialState).1 = Outcome.exited 1 :=
  (failed_exit_code_query_is_failure checkedState failedQueryTick []
    (by decide) rfl rfl (Or.inr rfl)).2 checkedEnv [] initialState rfl

/-! ## Start-up failures -/

/-- The calls of a start-up whose `CreateProcess` fails. -/
theorem failed_launch_trace (e : StartupEnv) (ticks : List Tick)
    (s0 : State) (app : String)
    (h1 : e.callocOk = true) (h2 : e.registerServiceCtrlHandler ≠ 0)
    (h3 : e.createEvent = true) (h4 : e.regOpenKeyEx = true)
    (h5 : e.Application = some app) (h6 : e.createProcess = none) :
    (ServiceMain e ticks s0).2.trace = s0.trace ++
      [Call.createProcess (app ++ " " ++ e.AppParameters.getD "") e.AppEnvironment
        e.AppDirectory false,
       Call.closeHandle,
       Call.setServiceStatus (serviceStatus 0 SERVICE_STOPPED 0)] := by
  cases h8 : e.AppExitCode <;> simp [ServiceMain, h1, h2, h3, h4, h5, h6, h8]


/-- C7, the code at a failing launch: whenever start-up reaches
`CreateProcess` and it fails, `ServiceMain` returns after exactly three calls:
the failed `CreateProcess`, `CloseHandle` on the stop event, and
`SetServiceStatus` with state `SERVICE_STOPPED` and exit code 0, whatever
`GetLastError()` is.  No `SERVICE_RUNNING` is published and no worker thread
is created, but the published exit code is 0, not a diagnostic code. -/
theorem launch_failure_publishes_exit_code_zero (e : StartupEnv) (ticks : List Tick)
    (s0 : State) (app : String)
    (h1 : e.callocOk = true) (h2 : e.registerServiceCtrlHandler ≠ 0)
    (h3 : e.createEvent = true) (h4 : e.regOpenKeyEx = true)
    (h5 : e.Application = some app) (h6 : e.createProcess = none) :
    (ServiceMain e ticks s0).1 = Outcome.returned () ∧
    (ServiceMain e ticks s0).2.trace = s0.trace ++
      [Call.createProcess (app ++ " " ++ e.AppParameters.getD "") e.AppEnvironment
        e.AppDirectory false,
       Call.closeHandle,
       Call.setServiceStatus (serviceStatus 0 SERVICE_STOPPED 0)] ∧
    (published (ServiceMain e ticks s0).2.trace).getLast? =
      some (serviceStatus 0 SERVICE_STOPPED 0) ∧
    (serviceStatus 0 SERVICE_STOPPED 0).dwWin32ExitCode = 0 := by
  have htrace := failed_launch_trace e ticks s0 app h1 h2 h3 h4 h5 h6
  refine ⟨?_, htrace, ?_, rfl⟩
  · cases h8 : e.AppExitCode <;> simp [ServiceMain, h1, h2, h3, h4, h5, h6, h8]
  · rw [htrace, published_append]
    simp [published]

/-- Witness for C7: `CreateProcess` fails with `ERROR_FILE_NOT_FOUND`; the
status published is `SERVICE_STOPPED` with exit code 0. -/
theorem launch_failure_publishes_exit_code_zero_witness :
    (published (ServiceMain launchFailureEnv [aliveTick] initialState).2.trace).getLast? =
      some (serviceStatus 0 SERVICE_STOPPED 0) :=
  (launch_failure_publishes_exit_code_zero launchFailureEnv [aliveTick] initialState
    "C:/svc/app.exe" rfl (by decide) rfl rfl rfl rfl).2.2.1

/-- C8: whenever the `Application` value cannot be read (the `Parameters` key
cannot be opened, or the value query fails), `ServiceMain` returns having
issued a single call, `SetServiceStatus` with state `SERVICE_STOPPED`: no
`CreateProcess`, no `SERVICE_RUNNING` status, no `CreateThread` and no call of
the worker appear in the trace, `g_Process` keeps its value, and the result
does not depend on the other registry values or on the observations offered to
the worker. -/
theorem missing_application_aborts_before_launch (e : StartupEnv) (ticks : List Tick)
    (s0 : State)
    (h : e.regOpenKeyEx = false ∨ e.Application = none) :
    (ServiceMain e ticks s0).1 = Outcome.returned () ∧
    (ServiceMain e ticks s0).2.g_Process = s0.g_Process ∧
    (∃ code : DWORD, (ServiceMain e ticks s0).2.trace =
      s0.trace ++ [Call.setServiceStatus (serviceStatus 0 SERVICE_STOPPED code)]) ∧
    ServiceMain e ticks s0 = ServiceMain e [] s0 := by
  cases h1 : e.callocOk with
  | false => exact ⟨by simp [ServiceMain, h1], by simp [ServiceMain, h1],
      ⟨e.lastError, by simp [ServiceMain, h1]⟩, by simp [ServiceMain, h1]⟩
  | true =>
  by_cases h2 : e.registerServiceCtrlHandler = 0
  · exact ⟨by simp [ServiceMain, h1, h2], by simp [ServiceMain, h1, h2],
      ⟨e.lastError, by simp [ServiceMain, h1, h2]⟩, by simp [ServiceMain, h1, h2]⟩
  cases h3 : e.createEvent with
  | false => exact ⟨by simp [ServiceMain, h1, h2, h3], by simp [ServiceMain, h1, h2, h3],
      ⟨e.lastError, by simp [ServiceMain, h1, h2, h3]⟩, by simp [ServiceMain, h1, h2, h3]⟩
  | true =>
  cases h4 : e.regOpenKeyEx with
  | false => exact ⟨by simp [ServiceMain, h1, h2, h3, h4], by simp [ServiceMain, h1, h2, h3, h4],
      ⟨0, by simp [ServiceMain, h1, h2, h3, h4]⟩, by simp [ServiceMain, h1, h2, h3, h4]⟩
  | true =>
  have h5 : e.Application = none := by
    rcases h with h | h
    · rw [h4] at h; cases h
    · exact h
  exact ⟨by simp [ServiceMain, h1, h2, h3, h4, h5], by simp [ServiceMain, h1, h2, h3, h4, h5],
    ⟨0, by simp [ServiceMain, h1, h2, h3, h4, h5]⟩, by simp [ServiceMain, h1, h2, h3, h4, h5]⟩

/-- Witness for C8: the `Application` value is missing while every other
value is present. -/
theorem missing_application_aborts_before_launch_witness :
    (ServiceMain missingApplicationEnv [exitZeroTick] initialState).1 = Outcome.returned () :=
  (missing_application_aborts_before_launch missingApplicationEnv [exitZeroTick] initialState
    (Or.inr rfl)).1

/-! ## Accepted-controls masks -/

/-- C10: every status the control handler publishes (Stopped on Stop, Paused
on Pause, Running on Continue) has accepted-controls mask 0, so the last
status after a Pause or a Continue is a non-stopped state that advertises no
control.  In a whole run of `ServiceMain`, with control requests interleaved
at every poll, the trace is an optional launch part, which is the successful
`CreateProcess` immediately followed by the status `SERVICE_RUNNING` with
mask `SERVICE_ACCEPT_STOP`, and a rest in which every published status has
mask 0.  That Running status is therefore the only one that advertises Stop. -/
theorem accepted_controls_mask :
    (∀ (code : DWORD) (r : Bool) (s : State),
      ∃ new : List Call, (ServiceCtrlHandler code r s).trace = s.trace ++ new ∧
        ∀ st ∈ published new, st.dwControlsAccepted = 0 ∧ acceptsStop st = false) ∧
    (∀ (r : Bool) (s : State),
      (published (ServiceCtrlHandler SERVICE_CONTROL_PAUSE r s).trace).getLast? =
        some (serviceStatus 0 SERVICE_PAUSED 0) ∧
      (published (ServiceCtrlHandler SERVICE_CONTROL_CONTINUE r s).trace).getLast? =
        some (serviceStatus 0 SERVICE_RUNNING 0) ∧
      (published (ServiceCtrlHandler SERVICE_CONTROL_STOP r s).trace).getLast? =
        some (serviceStatus 0 SERVICE_STOPPED 0)) ∧
    (SERVICE_PAUSED ≠ SERVICE_STOPPED ∧ SERVICE_RUNNING ≠ SERVICE_STOPPED) ∧
    (∀ (e : StartupEnv) (ticks : List Tick) (s0 : State),
      ∃ launch rest : List Call,
        (ServiceMain e ticks s0).2.trace = s0.trace ++ launch ++ rest ∧
        (launch = [] ∨ ∃ cmd env dir, launch =
          [Call.createProcess cmd env dir true,
           Call.setServiceStatus (serviceStatus SERVICE_ACCEPT_STOP SERVICE_RUNNING 0)]) ∧
        ∀ st ∈ published rest, st.dwControlsAccepted = 0 ∧ acceptsStop st = false) ∧
    acceptsStop (serviceStatus SERVICE_ACCEPT_STOP SERVICE_RUNNING 0) = true := by
  have hmask : ∀ st : SERVICE_STATUS, st.dwControlsAccepted = 0 →
      st.dwControlsAccepted = 0 ∧ acceptsStop st = false := by
    intro st h
    exact ⟨h, by simp [acceptsStop, h]⟩
  -- a start-up that stops before the launch publishes one status with mask 0
  have hfail : ∀ (s1 : State) (x : DWORD), ∀ st ∈ published
      [Call.setServiceStatus (serviceStatus 0 SERVICE_STOPPED x)],
      st.dwControlsAccepted = 0 ∧ acceptsStop st = false := by
    intro _ x st hst
    simp only [published_setServiceStatus, List.mem_singleton] at hst
    subst hst
    exact hmask _ rfl
  refine ⟨?_, ?_, by decide, ?_, by decide⟩
  · intro code r s
    obtain ⟨⟨new, hnew, hq⟩, _⟩ := quiet_ServiceCtrlHandler code r s
    exact ⟨new, hnew, fun st hst => hmask st (hq st hst)⟩
  · intro r s
    simp [ServiceCtrlHandler_published, SERVICE_CONTROL_PAUSE, SERVICE_CONTROL_CONTINUE,
      SERVICE_CONTROL_STOP, List.getLast?_append]
  · intro e ticks s0
    cases h1 : e.callocOk with
    | false =>
      exact ⟨[], [Call.setServiceStatus (serviceStatus 0 SERVICE_STOPPED e.lastError)],
        by simp [ServiceMain, h1], Or.inl rfl, hfail s0 _⟩
    | true =>
    by_cases h2 : e.registerServiceCtrlHandler = 0
    · exact ⟨[], [Call.setServiceStatus (serviceStatus 0 SERVICE_STOPPED e.lastError)],
        by simp [ServiceMain, h1, h2], Or.inl rfl, hfail s0 _⟩
    cases h3 : e.createEvent with
    | false =>
      exact ⟨[], [Call.setServiceStatus (serviceStatus 0 SERVICE_STOPPED e.lastError)],
        by simp [ServiceMain, h1, h2, h3], Or.inl rfl, hfail s0 _⟩
    | true =>
    cases h4 : e.regOpenKeyEx with
    | false =>
      exact ⟨[], [Call.setServiceStatus (serviceStatus 0 SERVICE_STOPPED 0)],
        by simp [ServiceMain, h1, h2, h3, h4], Or.inl rfl, hfail s0 _⟩
    | true =>
    cases h5 : e.Application with
    | none =>
      exact ⟨[], [Call.setServiceStatus (serviceStatus 0 SERVICE_STOPPED 0)],
        by simp [ServiceMain, h1, h2, h3, h4, h5], Or.inl rfl, hfail s0 _⟩
    | some app =>
    cases h6 : e.createProcess with
    | none =>
      refine ⟨[], [Call.createProcess (app ++ " " ++ e.AppParameters.getD "") e.AppEnvironment
        e.AppDirectory false, Call.closeHandle,
        Call.setServiceStatus (serviceStatus 0 SERVICE_STOPPED 0)], ?_, Or.inl rfl, ?_⟩
      · rw [(failed_launch_trace e ticks s0 app h1 h2 h3 h4 h5 h6)]
        simp
      · intro st hst
        have : st = serviceStatus 0 SERVICE_STOPPED 0 := by simpa [published] using hst
        subst this
        exact hmask _ rfl
    | some pinfo =>
    cases h7 : e.createThread with
    | false =>
      refine ⟨[Call.createProcess (app ++ " " ++ e.AppParameters.getD "") e.AppEnvironment
          e.AppDirectory true,
          Call.setServiceStatus (serviceStatus SERVICE_ACCEPT_STOP SERVICE_RUNNING 0)],
        [Call.createThread false,
          Call.setServiceStatus (serviceStatus 0 SERVICE_STOPPED e.lastError)],
        ?_, Or.inr ⟨_, _, _, rfl⟩, ?_⟩
      · cases h8 : e.AppExitCode <;> simp [ServiceMain, h1, h2, h3, h4, h5, h6, h7, h8]
      · intro st hst
        have : st = serviceStatus 0 SERVICE_STOPPED e.lastError := by
          simpa [published] using hst
        subst this
        exact hmask _ rfl
    | true =>
    -- the launch succeeded: with no observation at all the worker is polling
    have hrun : (ServiceMain e [] s0).1 = Outcome.running := by
      cases h8 : e.AppExitCode <;>
        simp [ServiceMain, h1, h2, h3, h4, h5, h6, h7, h8, ServiceWorkerThread]
    obtain ⟨sL, _, _, _, ⟨cmd, env, dir, htr⟩, hall⟩ :=
      ServiceMain_running e [] s0 (ServiceMain e [] s0).2 (Prod.ext hrun rfl)
    obtain ⟨⟨new, hnew, hq⟩, _⟩ := quiet_ServiceWorkerThread ticks sL
    rw [hall ticks]
    rcases hres : ServiceWorkerThread ticks sL with ⟨o, s1⟩
    rw [hres] at hnew
    simp only at hnew
    cases o with
    | returned v =>
      refine ⟨_, [Call.createThread true] ++ new ++
        [Call.closeHandle, Call.setServiceStatus (serviceStatus 0 SERVICE_STOPPED 0)],
        ?_, Or.inr ⟨cmd, env, dir, rfl⟩, ?_⟩
      · simp [hnew, htr]
      · intro st hst
        simp only [published_append, List.mem_append] at hst
        rcases hst with (h | h) | h
        · simp [published] at h
        · exact hmask st (hq st h)
        · have : st = serviceStatus 0 SERVICE_STOPPED 0 := by simpa [published] using h
          subst this
          exact hmask _ rfl
    | exited status =>
      refine ⟨_, [Call.createThread true] ++ new, ?_, Or.inr ⟨cmd, env, dir, rfl⟩, ?_⟩
      · simp [hnew, htr]
      · intro st hst
        simp only [published_append, List.mem_append] at hst
        rcases hst with h | h
        · simp [published] at h
        · exact hmask st (hq st h)
    | running =>
      refine ⟨_, [Call.createThread true] ++ new, ?_, Or.inr ⟨cmd, env, dir, rfl⟩, ?_⟩
      · simp [hnew, htr]
      · intro st hst
        simp only [published_append, List.mem_append] at hst
        rcases hst with h | h
        · simp [published] at h
        · exact hmask st (hq st h)

end SrvanyNg
